import Mathlib

/-!
Shallow embedding of the ReQueue dashboard server (src/src/index.js and the
dashboard API server variant in src/unnamed/part_000) together with a model
of the interface it needs from the external queue engine (`requeue`'s
QueueManager, which is not shipped under src/).

The dashboard code is translated function by function: the stats aggregator
`getSystemStats`, the HTTP handlers for /api/health, /api/queues (GET and
POST), DELETE /api/queues/:queueId, /api/jobs, /api/activity/recent, the
socket connection handler that maintains `connectedClients`, and the
engine-event relay `setupRealtimeEvents`.
-/

namespace Dashboard

/-- A queue item (job) as the dashboard reads it from the engine: an id,
a status string (the status vocabulary is owned by the engine; the dashboard
only compares it against the four literals below), and a creation timestamp
`addedAt` (modelled as milliseconds, a natural number). -/
structure Job where
  id : String
  status : String
  addedAt : Nat
  deriving Repr, DecidableEq

/-- One queue as seen through the engine client, together with flags that
model whether the per-queue engine calls (`getQueueStats`, `getQueueItems`)
raise for this queue.  `itemCount` is the declared item count reported by
`getQueueStats(queue.id).itemCount`; `items` is the queue's item list in the
engine's enumeration order, as sliced by `getQueueItems`. -/
structure QueueData where
  id : String
  name : String
  items : List Job
  itemCount : Nat
  statsFail : Bool
  itemsFail : Bool
  deriving Repr, DecidableEq

/-- The engine state visible to the dashboard through the QueueManager
client: the queue collection plus flags modelling whether the engine-level
calls (`qm.getSystemStats()`, `qm.getAllQueues(...)`, `qm.healthCheck()`,
`qm.createQueue(...)`, `qm.deleteQueue(...)`) raise.  `healthStatus` is the
status string `healthCheck` reports when it succeeds. -/
structure EngineState where
  queues : List QueueData
  statsCallFail : Bool
  listFail : Bool
  healthFail : Bool
  healthStatus : String
  createFail : Bool
  deleteFail : Bool
  deriving Repr, DecidableEq

/-- Modelled from the spec: `qm.getQueueItems(queueId, start, stop)` is part
of the external QueueManager, whose source is not under src/.  The spec
describes the dashboard's calls to it as fetching a slice of the queue's
items: `getQueueItems(id, 0, 1000)` fetches "up to 1000 of its items" and
`getQueueItems(id, 0, 10)` takes "up to 10 most-recent items per queue", so
the two indices are modelled as a half-open index range: the items with
indices `start ≤ i < stop`, in the engine's enumeration order. -/
def getQueueItems (q : QueueData) (start stop : Nat) : List Job :=
  (q.items.drop start).take (stop - start)

/-- The result shape of `qm.getAllQueues({limit: 1000})`: a page of queues
plus the declared total. -/
structure QueueListing where
  queues : List QueueData
  total : Nat
  deriving Repr, DecidableEq

/-- Modelled from the spec: `qm.getAllQueues({limit: 1000})` is part of the
external QueueManager, whose source is not under src/.  Per the spec's
algorithm step "Fetch up to 1000 queues", it returns the first up-to-1000
queues together with the engine's declared total queue count. -/
def getAllQueues (st : EngineState) : QueueListing :=
  { queues := st.queues.take 1000, total := st.queues.length }

/-- One step of the `jobs.forEach` loop in `getSystemStats`
(src/src/index.js lines 224-230): `if (status === 'processing' ||
status === 'pending') activeJobs++; else if (status === 'failed' ||
status === 'timed_out') failedJobs++;`.  The accumulator is the pair
(activeJobs, failedJobs). -/
def bucketStep (acc : Nat × Nat) (job : Job) : Nat × Nat :=
  if job.status == "processing" || job.status == "pending" then (acc.1 + 1, acc.2)
  else if job.status == "failed" || job.status == "timed_out" then (acc.1, acc.2 + 1)
  else acc

/-- The dashboard's active bucket: status "processing" or "pending". -/
def isActiveStatus (s : String) : Bool :=
  s == "processing" || s == "pending"

/-- The dashboard's failed bucket: status "failed" or "timed_out". -/
def isFailedStatus (s : String) : Bool :=
  s == "failed" || s == "timed_out"

/-- One iteration of the `for (const queue of queues.queues)` loop in
`getSystemStats` (src/src/index.js lines 218-234), accumulating
(totalJobs, activeJobs, failedJobs).  The `try` block first awaits
`getQueueStats` and adds `itemCount` to totalJobs, then awaits
`getQueueItems(queue.id, 0, 1000)` and buckets each item; a raise in the
first call skips the whole body, a raise in the second happens after
totalJobs was already incremented.  The `catch` only logs. -/
def statsQueueStep (acc : Nat × Nat × Nat) (q : QueueData) : Nat × Nat × Nat :=
  if q.statsFail then acc
  else
    let t := acc.1 + q.itemCount
    if q.itemsFail then (t, acc.2.1, acc.2.2)
    else
      let buckets := (getQueueItems q 0 1000).foldl bucketStep (acc.2.1, acc.2.2)
      (t, buckets.1, buckets.2)

/-- The `system` object `getSystemStats` returns (the dashboard-computed
fields; the spread of engine-reported fields of the same object is not
referenced by any endpoint and is not modelled). -/
structure SystemBlock where
  totalQueues : Nat
  totalJobs : Nat
  activeJobs : Nat
  failedJobs : Nat
  connectedClients : Nat
  deriving Repr, DecidableEq

/-- `getSystemStats` from src/src/index.js lines 197-251.  `qm` absent
returns zeroed totals with the live connected-client count, without error.
With the engine present the outer `try` awaits `qm.getSystemStats()` and
then `qm.getAllQueues({limit: 1000})`; a raise in either propagates
(`throw error` in the catch).  Then the per-queue loop accumulates, with
per-queue failures swallowed by the inner catch. -/
def getSystemStats (qm : Option EngineState) (connectedClients : Nat) :
    Except String SystemBlock :=
  match qm with
  | none => .ok ⟨0, 0, 0, 0, connectedClients⟩
  | some st =>
    if st.statsCallFail then .error "engine getSystemStats failed"
    else if st.listFail then .error "getAllQueues failed"
    else
      let listing := getAllQueues st
      let totals := listing.queues.foldl statsQueueStep (0, 0, 0)
      .ok ⟨listing.total, totals.1, totals.2.1, totals.2.2, connectedClients⟩

end Dashboard

namespace Dashboard

lemma bucketStep_foldl (l : List Job) (a f : Nat) :
    l.foldl bucketStep (a, f) =
      (a + (l.countP (fun j => isActiveStatus j.status)),
       f + (l.countP (fun j => isFailedStatus j.status))) := by
  induction l generalizing a f with
  | nil => simp
  | cons j rest ih =>
    have hdisj : isActiveStatus j.status = true → isFailedStatus j.status = false := by
      unfold isActiveStatus isFailedStatus
      intro h
      rcases Bool.or_eq_true_iff.mp h with h1 | h1 <;> simp_all
    by_cases hA : isActiveStatus j.status = true
    · have hF := hdisj hA
      simp only [List.foldl_cons, List.countP_cons, bucketStep]
      rw [if_pos (by simpa [isActiveStatus] using hA)]
      rw [ih]
      simp [hA, hF, Nat.add_assoc, Nat.add_comm]
    · by_cases hF : isFailedStatus j.status = true
      · simp only [List.foldl_cons, List.countP_cons, bucketStep]
        rw [if_neg (by simpa [isActiveStatus] using hA),
            if_pos (by simpa [isFailedStatus] using hF)]
        rw [ih]
        simp [hA, hF, Nat.add_assoc, Nat.add_comm]
      · simp only [List.foldl_cons, List.countP_cons, bucketStep]
        rw [if_neg (by simpa [isActiveStatus] using hA),
            if_neg (by simpa [isFailedStatus] using hF)]
        rw [ih]
        simp [hA, hF]

/-- The contribution of one queue to the (totalJobs, activeJobs, failedJobs)
accumulators of `getSystemStats`, read off `statsQueueStep`: a queue whose
`getQueueStats` raises contributes nothing; one whose `getQueueItems` raises
contributes only its declared `itemCount`; otherwise it contributes its
`itemCount` plus the bucket counts over the first up-to-1000 items. -/
def perQueueContribution (q : QueueData) : Nat × Nat × Nat :=
  if q.statsFail then (0, 0, 0)
  else if q.itemsFail then (q.itemCount, 0, 0)
  else
    (q.itemCount,
     (getQueueItems q 0 1000).countP (fun j => isActiveStatus j.status),
     (getQueueItems q 0 1000).countP (fun j => isFailedStatus j.status))

lemma statsQueueStep_eq (acc : Nat × Nat × Nat) (q : QueueData) :
    statsQueueStep acc q =
      (acc.1 + (perQueueContribution q).1,
       acc.2.1 + (perQueueContribution q).2.1,
       acc.2.2 + (perQueueContribution q).2.2) := by
  obtain ⟨t, a, f⟩ := acc
  unfold statsQueueStep perQueueContribution
  by_cases h1 : q.statsFail
  · simp [h1]
  · by_cases h2 : q.itemsFail
    · simp [h1, h2]
    · simp [h1, h2, bucketStep_foldl]

lemma statsFold_eq (l : List QueueData) (t a f : Nat) :
    l.foldl statsQueueStep (t, a, f) =
      (t + (l.map (fun q => (perQueueContribution q).1)).sum,
       a + (l.map (fun q => (perQueueContribution q).2.1)).sum,
       f + (l.map (fun q => (perQueueContribution q).2.2)).sum) := by
  induction l generalizing t a f with
  | nil => simp
  | cons q rest ih =>
    simp only [List.foldl_cons, statsQueueStep_eq, List.map_cons, List.sum_cons]
    rw [ih]
    simp only [Prod.mk.injEq]
    refine ⟨by omega, by omega, by omega⟩

/-- C1.  The dashboard's status classification, as executed by the
`jobs.forEach` bucketing loop of `getSystemStats`, puts exactly the statuses
"pending" and "processing" into the active bucket and exactly "failed" and
"timed_out" into the failed bucket, every other status into neither; for a
queue holding one item of each of the six statuses pending, processing,
completed, failed, timed_out, cancelled, the computed stats have
activeJobs = 2 and failedJobs = 2 (and totalJobs = 6). -/
theorem C1_status_classification :
    (∀ s : String, isActiveStatus s = true ↔ (s = "pending" ∨ s = "processing"))
    ∧ (∀ s : String, isFailedStatus s = true ↔ (s = "failed" ∨ s = "timed_out"))
    ∧ (∀ (l : List Job) (a f : Nat),
        l.foldl bucketStep (a, f) =
          (a + l.countP (fun j => isActiveStatus j.status),
           f + l.countP (fun j => isFailedStatus j.status)))
    ∧ getSystemStats
        (some { queues := [{ id := "q1", name := "Q1",
                             items := [⟨"j1", "pending", 1⟩, ⟨"j2", "processing", 2⟩,
                                       ⟨"j3", "completed", 3⟩, ⟨"j4", "failed", 4⟩,
                                       ⟨"j5", "timed_out", 5⟩, ⟨"j6", "cancelled", 6⟩],
                             itemCount := 6, statsFail := false, itemsFail := false }],
                statsCallFail := false, listFail := false,
                healthFail := false, healthStatus := "healthy",
                createFail := false, deleteFail := false }) 0
      = Except.ok ⟨1, 6, 2, 2, 0⟩ := by
  refine ⟨?_, ?_, bucketStep_foldl, ?_⟩
  · intro s
    unfold isActiveStatus
    constructor
    · intro h
      rcases Bool.or_eq_true_iff.mp h with h1 | h1
      · exact Or.inr (by simpa using h1)
      · exact Or.inl (by simpa using h1)
    · rintro (h | h) <;> simp [h]
  · intro s
    unfold isFailedStatus
    constructor
    · intro h
      rcases Bool.or_eq_true_iff.mp h with h1 | h1
      · exact Or.inl (by simpa using h1)
      · exact Or.inr (by simpa using h1)
    · rintro (h | h) <;> simp [h]
  · rfl

/-- Stated from the spec's words, for comparison with the source-derived
aggregation: all three aggregate counts (totalJobs, activeJobs, failedJobs)
obtained from "each queue's item-status classification evaluated against at
most the first 1000 items per queue", summed across all queues returned by
the listing call. -/
def specScanTotals (st : EngineState) : Nat × Nat × Nat :=
  (((getAllQueues st).queues.map (fun q => (q.items.take 1000).length)).sum,
   ((getAllQueues st).queues.map
      (fun q => (q.items.take 1000).countP (fun j => isActiveStatus j.status))).sum,
   ((getAllQueues st).queues.map
      (fun q => (q.items.take 1000).countP (fun j => isFailedStatus j.status))).sum)

lemma countP_replicate (p : Job → Bool) (j : Job) (n : Nat) :
    (List.replicate n j).countP p = if p j then n else 0 := by
  induction n with
  | zero => simp
  | succ n ih =>
    rw [List.replicate_succ, List.countP_cons]
    by_cases h : p j <;> simp [h, ih]

/-- C2 counterexample.  First conjunct: an engine state whose `getAllQueues`
succeeds (`listFail = false`) but whose engine-level `getSystemStats` raises
makes the dashboard's stats computation fail, so it does not fail *only*
when the list-all-queues call fails.  Second conjunct: a queue whose item
fetch raises (stats fetch succeeding, declared itemCount 5) contributes 5,
not zero, to totalJobs. -/
theorem C2_counterexample :
    (getSystemStats
        (some { queues := [], statsCallFail := true, listFail := false,
                healthFail := false, healthStatus := "healthy",
                createFail := false, deleteFail := false }) 0
       = Except.error "engine getSystemStats failed")
    ∧ (getSystemStats
        (some { queues := [{ id := "q1", name := "Q1", items := [],
                             itemCount := 5, statsFail := false, itemsFail := true }],
                statsCallFail := false, listFail := false,
                healthFail := false, healthStatus := "healthy",
                createFail := false, deleteFail := false }) 0
       = Except.ok ⟨1, 5, 0, 0, 0⟩) :=
  ⟨rfl, rfl⟩

/-- C2 (amended).  The stats computation fails exactly when the engine-level
`getSystemStats` call or the list-all-queues call fails; a queue whose
per-queue stats fetch raises contributes zero to all totals; a queue whose
item fetch raises (stats fetch succeeding) contributes its declared item
count to totalJobs and zero to activeJobs/failedJobs; per-queue failures
never abort the computation (the result is `ok` whenever the two
engine-level calls succeed, whatever the per-queue flags). -/
theorem C2_failure_scope (st : EngineState) (c : Nat) :
    ((getSystemStats (some st) c).isOk = false
        ↔ (st.statsCallFail = true ∨ st.listFail = true))
    ∧ (st.statsCallFail = false → st.listFail = false →
        getSystemStats (some st) c =
          Except.ok
            ⟨(getAllQueues st).total,
             ((getAllQueues st).queues.map (fun q => (perQueueContribution q).1)).sum,
             ((getAllQueues st).queues.map (fun q => (perQueueContribution q).2.1)).sum,
             ((getAllQueues st).queues.map (fun q => (perQueueContribution q).2.2)).sum,
             c⟩)
    ∧ (∀ q : QueueData, q.statsFail = true → perQueueContribution q = (0, 0, 0))
    ∧ (∀ q : QueueData, q.statsFail = false → q.itemsFail = true →
        perQueueContribution q = (q.itemCount, 0, 0)) := by
  refine ⟨?_, ?_, ?_, ?_⟩
  · unfold getSystemStats
    by_cases h1 : st.statsCallFail <;> by_cases h2 : st.listFail <;>
      simp [h1, h2, Except.isOk, Except.toBool]
  · intro h1 h2
    simp only [getSystemStats, h1, h2, Bool.false_eq_true, if_false, statsFold_eq]
    simp
  · intro q hq
    unfold perQueueContribution
    simp [hq]
  · intro q hq hq2
    unfold perQueueContribution
    simp [hq, hq2]

/-- C2 witness: the amended theorem instantiated at a concrete engine state
holding one queue whose item fetch fails. -/
theorem C2_failure_scope_witness :
    getSystemStats
        (some { queues := [{ id := "q1", name := "Q1", items := [],
                             itemCount := 5, statsFail := false, itemsFail := true }],
                statsCallFail := false, listFail := false,
                healthFail := false, healthStatus := "healthy",
                createFail := false, deleteFail := false }) 0
      = Except.ok ⟨1, 5, 0, 0, 0⟩
    ∧ perQueueContribution
        { id := "q1", name := "Q1", items := [],
          itemCount := 5, statsFail := false, itemsFail := true } = (5, 0, 0) := by
  have h := C2_failure_scope
    { queues := [{ id := "q1", name := "Q1", items := [],
                   itemCount := 5, statsFail := false, itemsFail := true }],
      statsCallFail := false, listFail := false,
      healthFail := false, healthStatus := "healthy",
      createFail := false, deleteFail := false } 0
  exact ⟨h.2.1 rfl rfl, h.2.2.2 _ rfl rfl⟩

set_option maxRecDepth 8000 in
/-- C3 counterexample.  A queue holding 1500 pending items (declared item
count 1500, no failures): the computed snapshot has totalJobs = 1500, while
any aggregate derived from the item-status classification over at most the
first 1000 items is bounded by 1000 — concretely, the spec-worded scan
totals give totalJobs = 1000.  So totalJobs is not the classification of
the truncated scan; it is the sum of declared item counts. -/
theorem C3_counterexample :
    getSystemStats
        (some { queues := [{ id := "q1", name := "Q1",
                             items := List.replicate 1500 ⟨"j", "pending", 0⟩,
                             itemCount := 1500, statsFail := false, itemsFail := false }],
                statsCallFail := false, listFail := false,
                healthFail := false, healthStatus := "healthy",
                createFail := false, deleteFail := false }) 0
      = Except.ok ⟨1, 1500, 1000, 0, 0⟩
    ∧ specScanTotals
        { queues := [{ id := "q1", name := "Q1",
                       items := List.replicate 1500 ⟨"j", "pending", 0⟩,
                       itemCount := 1500, statsFail := false, itemsFail := false }],
          statsCallFail := false, listFail := false,
          healthFail := false, healthStatus := "healthy",
          createFail := false, deleteFail := false }
      = (1000, 1000, 0)
    ∧ (1500 : Nat) ≠ 1000 := by
  have hact : isActiveStatus "pending" = true := by decide
  have hfl : isFailedStatus "pending" = false := by decide
  have htake : (List.replicate 1500 (⟨"j", "pending", 0⟩ : Job)).take 1000
      = List.replicate 1000 ⟨"j", "pending", 0⟩ := by
    rw [List.take_replicate]
    norm_num
  have hq : perQueueContribution
      { id := "q1", name := "Q1", items := List.replicate 1500 ⟨"j", "pending", 0⟩,
        itemCount := 1500, statsFail := false, itemsFail := false } = (1500, 1000, 0) := by
    unfold perQueueContribution getQueueItems
    simp only [Bool.false_eq_true, if_false, List.drop_zero, Nat.sub_zero, htake]
    rw [countP_replicate, countP_replicate]
    simp [hact, hfl]
  have htakeq : ∀ q : QueueData, List.take 1000 [q] = [q] := fun q =>
    List.take_of_length_le (by norm_num)
  refine ⟨?_, ?_, by omega⟩
  · simp only [getSystemStats, Bool.false_eq_true, if_false, statsFold_eq, getAllQueues]
    simp only [htakeq, List.map_cons, List.map_nil, List.sum_cons, List.sum_nil, hq]
    rfl
  · unfold specScanTotals getAllQueues
    simp only [htakeq, List.map_cons, List.map_nil, List.sum_cons, List.sum_nil, htake]
    rw [countP_replicate, countP_replicate]
    simp [hact, hfl]

/-- C3 (amended).  Whenever the snapshot is produced, activeJobs and
failedJobs equal the sum across all queues returned by the single listing
call of that queue's item-status classification evaluated against at most
its first 1000 items (failing queues contributing zero), while totalJobs
equals the sum of the declared per-queue item counts (not truncated at
1000; a queue whose stats fetch fails contributes zero, and one whose item
fetch alone fails still contributes its declared count). -/
theorem C3_aggregation_invariant (st : EngineState) (c : Nat)
    (h1 : st.statsCallFail = false) (h2 : st.listFail = false) :
    getSystemStats (some st) c =
      Except.ok
        ⟨(getAllQueues st).total,
         ((getAllQueues st).queues.map (fun q => (perQueueContribution q).1)).sum,
         ((getAllQueues st).queues.map (fun q => (perQueueContribution q).2.1)).sum,
         ((getAllQueues st).queues.map (fun q => (perQueueContribution q).2.2)).sum,
         c⟩
    ∧ (∀ q : QueueData, q.statsFail = false → q.itemsFail = false →
        perQueueContribution q =
          (q.itemCount,
           (q.items.take 1000).countP (fun j => isActiveStatus j.status),
           (q.items.take 1000).countP (fun j => isFailedStatus j.status))) := by
  constructor
  · simp only [getSystemStats, h1, h2, Bool.false_eq_true, if_false, statsFold_eq]
    simp
  · intro q hq hq2
    unfold perQueueContribution getQueueItems
    simp [hq, hq2]

/-- C3 witness: the amended invariant instantiated at a concrete two-queue
state, one queue of six mixed-status items and one failing queue. -/
theorem C3_aggregation_invariant_witness :
    getSystemStats
        (some { queues := [{ id := "q1", name := "Q1",
                             items := [⟨"j1", "pending", 1⟩, ⟨"j2", "failed", 2⟩],
                             itemCount := 2, statsFail := false, itemsFail := false },
                           { id := "q2", name := "Q2", items := [],
                             itemCount := 7, statsFail := true, itemsFail := false }],
                statsCallFail := false, listFail := false,
                healthFail := false, healthStatus := "healthy",
                createFail := false, deleteFail := false }) 3
      = Except.ok ⟨2, 2, 1, 1, 3⟩
    ∧ perQueueContribution
        { id := "q1", name := "Q1",
          items := [⟨"j1", "pending", 1⟩, ⟨"j2", "failed", 2⟩],
          itemCount := 2, statsFail := false, itemsFail := false }
      = (2, 1, 1) := by
  have h := C3_aggregation_invariant
    { queues := [{ id := "q1", name := "Q1",
                   items := [⟨"j1", "pending", 1⟩, ⟨"j2", "failed", 2⟩],
                   itemCount := 2, statsFail := false, itemsFail := false },
                 { id := "q2", name := "Q2", items := [],
                   itemCount := 7, statsFail := true, itemsFail := false }],
      statsCallFail := false, listFail := false,
      healthFail := false, healthStatus := "healthy",
      createFail := false, deleteFail := false } 3 rfl rfl
  exact ⟨h.1, h.2 _ rfl rfl⟩

/-- A job as returned by GET /api/jobs: the spread `{...job, queueId:
queue.id, queueName: queue.name}` (src/src/index.js lines 339-343). -/
structure AnnotatedJob where
  id : String
  status : String
  addedAt : Nat
  queueId : String
  queueName : String
  deriving Repr, DecidableEq

/-- The annotation step of the GET /api/jobs handler. -/
def annotate (q : QueueData) (j : Job) : AnnotatedJob :=
  ⟨j.id, j.status, j.addedAt, q.id, q.name⟩

/-- The order induced by the comparator `(a, b) => new Date(b.addedAt) -
new Date(a.addedAt)`: `a` may precede `b` when `b.addedAt ≤ a.addedAt`
(creation time descending). -/
def newerFirst (a b : AnnotatedJob) : Prop := b.addedAt ≤ a.addedAt

instance : DecidableRel newerFirst := fun a b => Nat.decLe b.addedAt a.addedAt

instance : IsTotal AnnotatedJob newerFirst :=
  ⟨fun a b => Nat.le_total b.addedAt a.addedAt⟩

instance : IsTrans AnnotatedJob newerFirst :=
  ⟨fun _ _ _ hab hbc => Nat.le_trans hbc hab⟩

/-- GET /api/jobs (src/src/index.js lines 324-355).  With the engine absent
it returns `[]`.  Otherwise it lists the queues (a raise there propagates to
the 500 branch), draws `getQueueItems(queue.id, 0, parseInt(limit) - 1)`
from each queue — a per-queue raise only logs and skips that queue —
annotates each job with its queue id and name, sorts the combined list by
`addedAt` descending (JS `sort` is stable), and answers the first `limit`
entries. -/
def getJobsHandler (qm : Option EngineState) (limitParam : Option Nat) :
    Except String (List AnnotatedJob) :=
  match qm with
  | none => .ok []
  | some st =>
    if st.listFail then .error "getAllQueues failed"
    else
      let limit := limitParam.getD 100
      let listing := getAllQueues st
      let allJobs := listing.queues.foldl
        (fun acc q =>
          if q.itemsFail then acc
          else acc ++ (getQueueItems q 0 (limit - 1)).map (annotate q)) []
      .ok ((List.insertionSort newerFirst allJobs).take limit)

/-- An activity entry as built by GET /api/activity/recent
(src/src/index.js lines 372-378). -/
structure ActivityRecord where
  type : String
  description : String
  status : String
  timestamp : Nat
  queueId : String
  deriving Repr, DecidableEq

/-- The projection of one job to an activity entry: `{type: 'Job',
description: Job <id> in <queue name>, status, timestamp: addedAt,
queueId}`. -/
def toActivity (q : QueueData) (j : Job) : ActivityRecord :=
  ⟨"Job", "Job " ++ j.id ++ " in " ++ q.name, j.status, j.addedAt, q.id⟩

/-- The order induced by the comparator `(a, b) => new Date(b.timestamp) -
new Date(a.timestamp)`: timestamp descending. -/
def laterFirst (a b : ActivityRecord) : Prop := b.timestamp ≤ a.timestamp

instance : DecidableRel laterFirst := fun a b => Nat.decLe b.timestamp a.timestamp

instance : IsTotal ActivityRecord laterFirst :=
  ⟨fun a b => Nat.le_total b.timestamp a.timestamp⟩

instance : IsTrans ActivityRecord laterFirst :=
  ⟨fun _ _ _ hab hbc => Nat.le_trans hbc hab⟩

/-- GET /api/activity/recent (src/src/index.js lines 357-390).  With the
engine absent it returns `[]`.  Otherwise it lists the queues (a raise there
propagates to the 500 branch), draws `getQueueItems(queue.id, 0, 10)` from
each queue — a per-queue raise only logs and skips that queue — projects
each job to an activity entry, sorts by timestamp descending, and answers
the first `limit` (default 20) entries. -/
def activityHandler (qm : Option EngineState) (limitParam : Option Nat) :
    Except String (List ActivityRecord) :=
  match qm with
  | none => .ok []
  | some st =>
    if st.listFail then .error "getAllQueues failed"
    else
      let limit := limitParam.getD 20
      let listing := getAllQueues st
      let activity := listing.queues.foldl
        (fun acc q =>
          if q.itemsFail then acc
          else acc ++ (getQueueItems q 0 10).map (toActivity q)) []
      .ok ((List.insertionSort laterFirst activity).take limit)

lemma foldl_skip_append {β : Type} (f : QueueData → List β) (l : List QueueData)
    (init : List β) :
    l.foldl (fun acc q => if q.itemsFail then acc else acc ++ f q) init =
      init ++ (l.filter (fun q => !q.itemsFail)).flatMap f := by
  induction l generalizing init with
  | nil => simp
  | cons q rest ih =>
    by_cases h : q.itemsFail
    · simp [h, ih]
    · simp [h, ih, List.append_assoc]

/-- C4.  For every engine state whose listing call succeeds and every limit
L, GET /api/jobs answers the first L entries of the per-queue draws merged
and sorted by creation time descending: the result is sorted descending,
has at most L entries, and every entry is a job of one of the listed queues
annotated with that queue's id and name.  In particular, with limit 2 over
three queues holding one job each with creation timestamps 10 < 20 < 30,
it returns exactly the two jobs with the latest timestamps, in descending
order. -/
theorem C4_all_jobs_listing (st : EngineState) (L : Nat) (h : st.listFail = false) :
    (getJobsHandler (some st) (some L) =
      Except.ok ((List.insertionSort newerFirst
        (((getAllQueues st).queues.filter (fun q => !q.itemsFail)).flatMap
          (fun q => (getQueueItems q 0 (L - 1)).map (annotate q)))).take L))
    ∧ (∀ R : List AnnotatedJob, getJobsHandler (some st) (some L) = Except.ok R →
        R.Sorted newerFirst
        ∧ R.length ≤ L
        ∧ (∀ aj ∈ R, ∃ q, q ∈ (getAllQueues st).queues ∧ q.itemsFail = false
            ∧ ∃ j, j ∈ q.items ∧ aj = annotate q j
            ∧ aj.queueId = q.id ∧ aj.queueName = q.name))
    ∧ getJobsHandler
        (some { queues := [{ id := "q1", name := "Q1", items := [⟨"j1", "pending", 10⟩],
                             itemCount := 1, statsFail := false, itemsFail := false },
                           { id := "q2", name := "Q2", items := [⟨"j2", "pending", 20⟩],
                             itemCount := 1, statsFail := false, itemsFail := false },
                           { id := "q3", name := "Q3", items := [⟨"j3", "pending", 30⟩],
                             itemCount := 1, statsFail := false, itemsFail := false }],
                statsCallFail := false, listFail := false,
                healthFail := false, healthStatus := "healthy",
                createFail := false, deleteFail := false }) (some 2)
      = Except.ok [⟨"j3", "pending", 30, "q3", "Q3"⟩, ⟨"j2", "pending", 20, "q2", "Q2"⟩] := by
  have hform : getJobsHandler (some st) (some L) =
      Except.ok ((List.insertionSort newerFirst
        (((getAllQueues st).queues.filter (fun q => !q.itemsFail)).flatMap
          (fun q => (getQueueItems q 0 (L - 1)).map (annotate q)))).take L) := by
    simp only [getJobsHandler, h, Bool.false_eq_true, if_false, Option.getD,
      foldl_skip_append, List.nil_append]
  refine ⟨hform, ?_, by rfl⟩
  intro R hR
  rw [hform] at hR
  injection hR with hR
  subst hR
  refine ⟨?_, List.length_take_le _ _, ?_⟩
  · exact List.Pairwise.sublist (List.take_sublist _ _)
      (List.sorted_insertionSort newerFirst _)
  · intro aj haj
    have h1 : aj ∈ List.insertionSort newerFirst
        (((getAllQueues st).queues.filter (fun q => !q.itemsFail)).flatMap
          (fun q => (getQueueItems q 0 (L - 1)).map (annotate q))) :=
      (List.take_sublist _ _).subset haj
    have h2 := (List.perm_insertionSort newerFirst _).subset h1
    rw [List.mem_flatMap] at h2
    obtain ⟨q, hq, hmem⟩ := h2
    rw [List.mem_filter] at hq
    rw [List.mem_map] at hmem
    obtain ⟨j, hj, hje⟩ := hmem
    refine ⟨q, hq.1, by simpa using hq.2, j, ?_, hje.symm, ?_, ?_⟩
    · have hsub : List.Sublist (getQueueItems q 0 (L - 1)) q.items := by
        unfold getQueueItems
        simpa using List.take_sublist _ _
      exact hsub.subset hj
    · rw [← hje]; rfl
    · rw [← hje]; rfl

/-- C4 witness: the jobs-listing theorem instantiated at the three-queue
state of the claim's example with limit 2. -/
theorem C4_all_jobs_listing_witness :
    getJobsHandler
        (some { queues := [{ id := "q1", name := "Q1", items := [⟨"j1", "pending", 10⟩],
                             itemCount := 1, statsFail := false, itemsFail := false },
                           { id := "q2", name := "Q2", items := [⟨"j2", "pending", 20⟩],
                             itemCount := 1, statsFail := false, itemsFail := false },
                           { id := "q3", name := "Q3", items := [⟨"j3", "pending", 30⟩],
                             itemCount := 1, statsFail := false, itemsFail := false }],
                statsCallFail := false, listFail := false,
                healthFail := false, healthStatus := "healthy",
                createFail := false, deleteFail := false }) (some 2)
      = Except.ok [⟨"j3", "pending", 30, "q3", "Q3"⟩, ⟨"j2", "pending", 20, "q2", "Q2"⟩] :=
  (C4_all_jobs_listing
    { queues := [{ id := "q1", name := "Q1", items := [⟨"j1", "pending", 10⟩],
                   itemCount := 1, statsFail := false, itemsFail := false },
                 { id := "q2", name := "Q2", items := [⟨"j2", "pending", 20⟩],
                   itemCount := 1, statsFail := false, itemsFail := false },
                 { id := "q3", name := "Q3", items := [⟨"j3", "pending", 30⟩],
                   itemCount := 1, statsFail := false, itemsFail := false }],
      statsCallFail := false, listFail := false,
      healthFail := false, healthStatus := "healthy",
      createFail := false, deleteFail := false } 2 rfl).2.2

/-- C9.  For every engine state whose listing call succeeds and every limit
L, GET /api/activity/recent draws at most the first 10 items of each queue,
projects each to an activity entry of the shape built at src/src/index.js
lines 372-378, sorts the combined list by timestamp descending and answers
at most L entries; a queue whose item fetch raises is skipped and the
endpoint still answers `ok` with the remaining queues' activity sorted. -/
theorem C9_recent_activity (st : EngineState) (L : Nat) (h : st.listFail = false) :
    (activityHandler (some st) (some L) =
      Except.ok ((List.insertionSort laterFirst
        (((getAllQueues st).queues.filter (fun q => !q.itemsFail)).flatMap
          (fun q => (getQueueItems q 0 10).map (toActivity q)))).take L))
    ∧ (∀ q : QueueData, (getQueueItems q 0 10).length ≤ 10)
    ∧ (∀ A : List ActivityRecord, activityHandler (some st) (some L) = Except.ok A →
        A.Sorted laterFirst
        ∧ A.length ≤ L
        ∧ (∀ a ∈ A, ∃ q, q ∈ (getAllQueues st).queues ∧ q.itemsFail = false
            ∧ ∃ j, j ∈ q.items ∧ a = toActivity q j)) := by
  have hform : activityHandler (some st) (some L) =
      Except.ok ((List.insertionSort laterFirst
        (((getAllQueues st).queues.filter (fun q => !q.itemsFail)).flatMap
          (fun q => (getQueueItems q 0 10).map (toActivity q)))).take L) := by
    simp only [activityHandler, h, Bool.false_eq_true, if_false, Option.getD,
      foldl_skip_append, List.nil_append]
  refine ⟨hform, ?_, ?_⟩
  · intro q
    unfold getQueueItems
    simp
  · intro A hA
    rw [hform] at hA
    injection hA with hA
    subst hA
    refine ⟨?_, List.length_take_le _ _, ?_⟩
    · exact List.Pairwise.sublist (List.take_sublist _ _)
        (List.sorted_insertionSort laterFirst _)
    · intro a ha
      have h1 : a ∈ List.insertionSort laterFirst
          (((getAllQueues st).queues.filter (fun q => !q.itemsFail)).flatMap
            (fun q => (getQueueItems q 0 10).map (toActivity q))) :=
        (List.take_sublist _ _).subset ha
      have h2 := (List.perm_insertionSort laterFirst _).subset h1
      rw [List.mem_flatMap] at h2
      obtain ⟨q, hq, hmem⟩ := h2
      rw [List.mem_filter] at hq
      rw [List.mem_map] at hmem
      obtain ⟨j, hj, hje⟩ := hmem
      refine ⟨q, hq.1, by simpa using hq.2, j, ?_, hje.symm⟩
      have hsub : List.Sublist (getQueueItems q 0 10) q.items := by
        unfold getQueueItems
        simpa using List.take_sublist _ _
      exact hsub.subset hj

/-- C9 witness: the activity theorem instantiated at a two-queue state whose
second queue's item fetch fails; the endpoint still answers the first
queue's activity, sorted by timestamp descending. -/
theorem C9_recent_activity_witness :
    activityHandler
        (some { queues := [{ id := "q1", name := "Q1",
                             items := [⟨"j1", "pending", 5⟩, ⟨"j2", "failed", 9⟩],
                             itemCount := 2, statsFail := false, itemsFail := false },
                           { id := "q2", name := "Q2", items := [⟨"j9", "pending", 50⟩],
                             itemCount := 1, statsFail := false, itemsFail := true }],
                statsCallFail := false, listFail := false,
                healthFail := false, healthStatus := "healthy",
                createFail := false, deleteFail := false }) (some 20)
      = Except.ok [⟨"Job", "Job j2 in Q1", "failed", 9, "q1"⟩,
                   ⟨"Job", "Job j1 in Q1", "pending", 5, "q1"⟩] := by
  have h := (C9_recent_activity
    { queues := [{ id := "q1", name := "Q1",
                   items := [⟨"j1", "pending", 5⟩, ⟨"j2", "failed", 9⟩],
                   itemCount := 2, statsFail := false, itemsFail := false },
                 { id := "q2", name := "Q2", items := [⟨"j9", "pending", 50⟩],
                   itemCount := 1, statsFail := false, itemsFail := true }],
      statsCallFail := false, listFail := false,
      healthFail := false, healthStatus := "healthy",
      createFail := false, deleteFail := false } 20 rfl).1
  rw [h]
  rfl

/-- The `maxSize` field of a POST /api/queues body, as far as the handler's
`maxSize || 10000` expression distinguishes values: absent (undefined),
null, or a number.  JS treats undefined, null and 0 as falsy; every other
number is truthy and forwarded verbatim. -/
inductive JsMaxSize where
  | undef
  | null
  | num (n : Int)
  deriving Repr, DecidableEq

/-- The value `maxSize || 10000` passed to `qm.createQueue`
(src/src/index.js line 304). -/
def maxSizeOrDefault : JsMaxSize → Int
  | .num n => if n = 0 then 10000 else n
  | _ => 10000

/-- The request body of POST /api/queues.  A missing string field is
`none`. -/
structure CreateQueueBody where
  name : Option String
  queueId : Option String
  description : Option String
  maxSize : JsMaxSize
  deriving Repr, DecidableEq

/-- Whether express-validator's `body(field).notEmpty()` records an error
for the field: it does when the field is missing or the empty string. -/
def failsNotEmpty : Option String → Bool
  | none => true
  | some s => s == ""

/-- One entry of `errors.array()`: the offending field path and the
`withMessage` text. -/
structure ValidationError where
  path : String
  msg : String
  deriving Repr, DecidableEq

/-- The validation chain of POST /api/queues (src/src/index.js lines
288-289): `body('name').notEmpty().withMessage('Queue name is required')`,
`body('queueId').notEmpty().withMessage('Queue ID is required')`. -/
def validateCreateQueue (b : CreateQueueBody) : List ValidationError :=
  (if failsNotEmpty b.name then [⟨"name", "Queue name is required"⟩] else []) ++
  (if failsNotEmpty b.queueId then [⟨"queueId", "Queue ID is required"⟩] else [])

/-- The argument record of a `qm.createQueue(name, queueId, {description,
maxSize})` call. -/
structure CreateQueueCall where
  name : String
  queueId : String
  description : Option String
  maxSize : Int
  deriving Repr, DecidableEq

/-- The observable outcome of POST /api/queues: the HTTP status, the
validation errors answered on a 400 validation response, and the list of
`createQueue` calls issued to the engine. -/
structure PostQueuesResult where
  status : Nat
  errors : List ValidationError
  calls : List CreateQueueCall
  deriving Repr, DecidableEq

/-- POST /api/queues (src/src/index.js lines 287-310).  First the
validation result is checked: if not empty, 400 with the error array and no
engine call.  Then absence of the engine yields 503 with no engine call.
Otherwise `createQueue(name, queueId, {description, maxSize: maxSize ||
10000})` is issued; an engine rejection is answered 400, success 200. -/
def postQueuesHandler (qm : Option EngineState) (b : CreateQueueBody) :
    PostQueuesResult :=
  let errs := validateCreateQueue b
  if errs.isEmpty = false then ⟨400, errs, []⟩
  else
    match qm with
    | none => ⟨503, [], []⟩
    | some st =>
      let call : CreateQueueCall :=
        ⟨b.name.getD "", b.queueId.getD "", b.description, maxSizeOrDefault b.maxSize⟩
      if st.createFail then ⟨400, [], [call]⟩ else ⟨200, [], [call]⟩

/-- DELETE /api/queues/:queueId (src/src/index.js lines 312-322): 503 when
the engine is absent, 400 when `deleteQueue` rejects, else success.  Only
the status is modelled. -/
def deleteQueueHandler (qm : Option EngineState) : Nat :=
  match qm with
  | none => 503
  | some st => if st.deleteFail then 400 else 200

/-- GET /api/health (src/src/index.js lines 254-264): with the engine
absent, 200 with `{status: 'demo'}`; otherwise `qm.healthCheck()`, whose
raise is answered 500 `{status: 'unhealthy'}`.  Modelled as (status code,
reported status string). -/
def healthHandler (qm : Option EngineState) : Nat × String :=
  match qm with
  | none => (200, "demo")
  | some st => if st.healthFail then (500, "unhealthy") else (200, st.healthStatus)

/-- GET /api/queues (src/src/index.js lines 275-285): with the engine
absent, `{queues: [], total: 0}`; otherwise `qm.getAllQueues({limit:
1000})`, whose raise is answered 500. -/
def getQueuesHandler (qm : Option EngineState) : Except String QueueListing :=
  match qm with
  | none => .ok ⟨[], 0⟩
  | some st =>
    if st.listFail then .error "getAllQueues failed" else .ok (getAllQueues st)

/-- C5.  A POST /api/queues body whose `name` is the empty string (or
missing) is answered 400 with a validation error whose path is `name`, and
no `createQueue` call reaches the engine; the same for `queueId`. -/
theorem C5_create_queue_validation (qm : Option EngineState) (b : CreateQueueBody)
    (h : b.name = some "" ∨ b.queueId = some "") :
    (postQueuesHandler qm b).status = 400
    ∧ (postQueuesHandler qm b).calls = []
    ∧ (b.name = some "" →
        ∃ e ∈ (postQueuesHandler qm b).errors, e.path = "name")
    ∧ (b.queueId = some "" →
        ∃ e ∈ (postQueuesHandler qm b).errors, e.path = "queueId") := by
  have hne : (validateCreateQueue b).isEmpty = false := by
    unfold validateCreateQueue
    rcases h with h | h
    · have : failsNotEmpty b.name = true := by rw [h]; rfl
      rcases hq : failsNotEmpty b.queueId <;> simp [this, hq]
    · have : failsNotEmpty b.queueId = true := by rw [h]; rfl
      rcases hn : failsNotEmpty b.name <;> simp [this, hn]
  refine ⟨?_, ?_, ?_, ?_⟩
  · simp [postQueuesHandler, hne]
  · simp [postQueuesHandler, hne]
  · intro hn
    have hb : failsNotEmpty b.name = true := by rw [hn]; rfl
    refine ⟨⟨"name", "Queue name is required"⟩, ?_, rfl⟩
    simp [postQueuesHandler, hne, validateCreateQueue, hb]
  · intro hq
    have hb : failsNotEmpty b.queueId = true := by rw [hq]; rfl
    refine ⟨⟨"queueId", "Queue ID is required"⟩, ?_, rfl⟩
    simp [postQueuesHandler, hne, validateCreateQueue, hb]

/-- C5 witness: a body with empty `name` and empty `queueId`, engine
present. -/
theorem C5_create_queue_validation_witness :
    (postQueuesHandler
        (some { queues := [], statsCallFail := false, listFail := false,
                healthFail := false, healthStatus := "healthy",
                createFail := false, deleteFail := false })
        { name := some "", queueId := some "", description := none,
          maxSize := .undef }).status = 400
    ∧ (postQueuesHandler
        (some { queues := [], statsCallFail := false, listFail := false,
                healthFail := false, healthStatus := "healthy",
                createFail := false, deleteFail := false })
        { name := some "", queueId := some "", description := none,
          maxSize := .undef }).calls = [] := by
  have h := C5_create_queue_validation
    (some { queues := [], statsCallFail := false, listFail := false,
            healthFail := false, healthStatus := "healthy",
            createFail := false, deleteFail := false })
    { name := some "", queueId := some "", description := none,
      maxSize := .undef } (Or.inl rfl)
  exact ⟨h.1, h.2.1⟩

/-- C10.  A validation-passing POST /api/queues body reaches the engine as
exactly one `createQueue` call whose options carry `maxSize || 10000`: a
falsy `maxSize` (absent, null, or 0) becomes 10000 — so a capacity bound of
0 cannot be requested — and a non-zero number is forwarded verbatim. -/
theorem C10_maxsize_default (st : EngineState) (b : CreateQueueBody)
    (hv : validateCreateQueue b = []) :
    (postQueuesHandler (some st) b).calls =
      [⟨b.name.getD "", b.queueId.getD "", b.description, maxSizeOrDefault b.maxSize⟩]
    ∧ ((b.maxSize = .undef ∨ b.maxSize = .null ∨ b.maxSize = .num 0) →
        maxSizeOrDefault b.maxSize = 10000)
    ∧ (∀ n : Int, n ≠ 0 → b.maxSize = .num n → maxSizeOrDefault b.maxSize = n) := by
  refine ⟨?_, ?_, ?_⟩
  · unfold postQueuesHandler
    rw [hv]
    rcases hc : st.createFail <;> simp [hc]
  · rintro (h | h | h) <;> simp [h, maxSizeOrDefault]
  · intro n hn h
    simp [h, maxSizeOrDefault, hn]

/-- C10 witness: a valid body carrying `maxSize: 0` leads to a single
`createQueue` call with maxSize 10000. -/
theorem C10_maxsize_default_witness :
    (postQueuesHandler
        (some { queues := [], statsCallFail := false, listFail := false,
                healthFail := false, healthStatus := "healthy",
                createFail := false, deleteFail := false })
        { name := some "orders", queueId := some "orders-q", description := none,
          maxSize := .num 0 }).calls =
      [⟨"orders", "orders-q", none, 10000⟩] := by
  have h := C10_maxsize_default
    { queues := [], statsCallFail := false, listFail := false,
      healthFail := false, healthStatus := "healthy",
      createFail := false, deleteFail := false }
    { name := some "orders", queueId := some "orders-q", description := none,
      maxSize := .num 0 } rfl
  rw [h.1]
  have h10 := h.2.1 (Or.inr (Or.inr rfl))
  rw [h10]
  rfl

/-- C6.  With the engine absent every engine-backed read endpoint answers
its degraded JSON shape without an error: /api/health `{status: 'demo'}`,
GET /api/queues `{queues: [], total: 0}`, GET /api/jobs `[]`,
GET /api/activity/recent `[]`, GET /api/system/stats zeroed totals plus the
live connected-client count; a validation-passing POST /api/queues is
answered 503 with no engine call, and DELETE /api/queues/:queueId 503. -/
theorem C6_engine_absent_degraded :
    healthHandler none = (200, "demo")
    ∧ getQueuesHandler none = Except.ok ⟨[], 0⟩
    ∧ (∀ L : Option Nat, getJobsHandler none L = Except.ok [])
    ∧ (∀ L : Option Nat, activityHandler none L = Except.ok [])
    ∧ (∀ c : Nat, getSystemStats none c = Except.ok ⟨0, 0, 0, 0, c⟩)
    ∧ (∀ b : CreateQueueBody, validateCreateQueue b = [] →
        postQueuesHandler none b = ⟨503, [], []⟩)
    ∧ deleteQueueHandler none = 503 := by
  refine ⟨rfl, rfl, fun _ => rfl, fun _ => rfl, fun _ => rfl, ?_, rfl⟩
  intro b hb
  unfold postQueuesHandler
  rw [hb]
  rfl

/-- C6 witness: the degraded-mode theorem applied with a concrete valid
creation body. -/
theorem C6_engine_absent_degraded_witness :
    postQueuesHandler none
        { name := some "orders", queueId := some "orders-q", description := none,
          maxSize := .undef } = ⟨503, [], []⟩
    ∧ healthHandler none = (200, "demo") :=
  ⟨C6_engine_absent_degraded.2.2.2.2.2.1
    { name := some "orders", queueId := some "orders-q", description := none,
      maxSize := .undef } rfl,
   C6_engine_absent_degraded.1⟩

/-- The real-time layer's state: the `connectedClients` set of socket ids
(a JS `Set`, modelled as a duplicate-free insertion list) and the socket.io
room memberships created by `socket.join` (pairs of socket id and room
name).  The rooms are carried to show that broadcasting ignores them. -/
structure RelayState where
  connectedClients : List String
  rooms : List (String × String)
  deriving Repr, DecidableEq

/-- The connection handler (src/src/index.js line 164):
`connectedClients.add(socket.id)`.  `Set.add` of an already-present id is a
no-op. -/
def connectClient (id : String) (s : RelayState) : RelayState :=
  if id ∈ s.connectedClients then s
  else { s with connectedClients := id :: s.connectedClients }

/-- The `subscribeQueue` handler (src/src/index.js lines 179-182):
`socket.join('queue:' + queueId)`; joining a room the socket is already in
is a no-op.  `connectedClients` is not touched. -/
def subscribeQueue (id queueId : String) (s : RelayState) : RelayState :=
  if (id, "queue:" ++ queueId) ∈ s.rooms then s
  else { s with rooms := (id, "queue:" ++ queueId) :: s.rooms }

/-- The `unsubscribeQueue` handler (src/src/index.js lines 184-187):
`socket.leave('queue:' + queueId)`.  `connectedClients` is not touched. -/
def unsubscribeQueue (id queueId : String) (s : RelayState) : RelayState :=
  { s with rooms := s.rooms.erase (id, "queue:" ++ queueId) }

/-- The `disconnect` handler (src/src/index.js lines 189-192):
`connectedClients.delete(socket.id)`.  (socket.io's internal removal of the
socket from its rooms happens outside this source and is not observable by
any claim, so `rooms` is left as the handler leaves it.) -/
def disconnectClient (id : String) (s : RelayState) : RelayState :=
  { s with connectedClients := s.connectedClients.erase id }

/-- C7.  The connected-client count grows by exactly one on connection of a
fresh socket id, shrinks by exactly one on disconnection of a connected id,
and is untouched by subscribeQueue/unsubscribeQueue; hence connect,
subscribe, disconnect returns the count to its prior value. -/
theorem C7_connected_client_count (s : RelayState) (id q : String)
    (h : id ∉ s.connectedClients) :
    (connectClient id s).connectedClients.length = s.connectedClients.length + 1
    ∧ (∀ (s2 : RelayState) (i qn : String),
        (subscribeQueue i qn s2).connectedClients = s2.connectedClients
        ∧ (unsubscribeQueue i qn s2).connectedClients = s2.connectedClients)
    ∧ (∀ (s2 : RelayState) (i : String), i ∈ s2.connectedClients →
        (disconnectClient i s2).connectedClients.length
          = s2.connectedClients.length - 1)
    ∧ (disconnectClient id (subscribeQueue id q (connectClient id s))).connectedClients
        = s.connectedClients := by
  have hsub : ∀ (s2 : RelayState) (i qn : String),
      (subscribeQueue i qn s2).connectedClients = s2.connectedClients := by
    intro s2 i qn
    unfold subscribeQueue
    by_cases hm : (i, "queue:" ++ qn) ∈ s2.rooms <;> simp [hm]
  have hconn : (connectClient id s).connectedClients = id :: s.connectedClients := by
    unfold connectClient
    simp [h]
  refine ⟨?_, ?_, ?_, ?_⟩
  · rw [hconn]; rfl
  · intro s2 i qn
    refine ⟨hsub s2 i qn, ?_⟩
    unfold unsubscribeQueue
    rfl
  · intro s2 i hi
    unfold disconnectClient
    simpa using List.length_erase_of_mem hi
  · unfold disconnectClient
    rw [hsub, hconn]
    simp

/-- C7 witness: starting from one connected client `a`, the client `b`
connects, subscribes to queue Q1, and disconnects, leaving the count at
its prior value 1 (and the intermediate count at 2). -/
theorem C7_connected_client_count_witness :
    (connectClient "b" { connectedClients := ["a"], rooms := [] }).connectedClients.length = 2
    ∧ (disconnectClient "b"
        (subscribeQueue "b" "Q1"
          (connectClient "b" { connectedClients := ["a"], rooms := [] }))).connectedClients
        = ["a"] := by
  have h := C7_connected_client_count { connectedClients := ["a"], rooms := [] } "b" "Q1"
    (by simp)
  exact ⟨h.1, h.2.2.2⟩

/-- The eight engine event names `setupRealtimeEvents` subscribes to
(src/src/index.js lines 127-157). -/
def engineEventNames : List String :=
  ["queueCreated", "queueDeleted", "queuePaused", "queueResumed",
   "jobAdded", "jobProcessed", "jobFailed", "jobCancelled"]

/-- `io.emit(event, data)`: delivery of (event, data) to every currently
connected client.  Room membership plays no part. -/
def ioEmit {α : Type} (ev : String) (payload : α) (s : RelayState) :
    List (String × String × α) :=
  s.connectedClients.map (fun c => (c, ev, payload))

/-- `setupRealtimeEvents` (src/src/index.js lines 123-158): one
`qm.eventEmitter.on(name, data => io.emit(name, data))` registration per
engine event name, each rebroadcasting the same event name with the payload
unchanged. -/
def setupRealtimeEvents {α : Type} :
    List (String × (α → RelayState → List (String × String × α))) :=
  [("queueCreated", fun d s => ioEmit "queueCreated" d s),
   ("queueDeleted", fun d s => ioEmit "queueDeleted" d s),
   ("queuePaused", fun d s => ioEmit "queuePaused" d s),
   ("queueResumed", fun d s => ioEmit "queueResumed" d s),
   ("jobAdded", fun d s => ioEmit "jobAdded" d s),
   ("jobProcessed", fun d s => ioEmit "jobProcessed" d s),
   ("jobFailed", fun d s => ioEmit "jobFailed" d s),
   ("jobCancelled", fun d s => ioEmit "jobCancelled" d s)]

/-- Receipt of an engine event: the handler registered for the event's
name runs (event names without a registration deliver nothing). -/
def dispatchEngineEvent {α : Type} (name : String) (payload : α)
    (s : RelayState) : List (String × String × α) :=
  match (setupRealtimeEvents (α := α)).lookup name with
  | some handler => handler payload s
  | none => []

/-- C8.  For each of the eight engine event names, receipt of that event
delivers the same event name with the payload unmodified to every currently
connected client, and the deliveries do not depend on the clients' room
(per-queue subscription group) membership. -/
theorem C8_event_relay {α : Type} (name : String) (payload : α) (s : RelayState)
    (h : name ∈ engineEventNames) :
    dispatchEngineEvent name payload s
        = s.connectedClients.map (fun c => (c, name, payload))
    ∧ (∀ c ∈ s.connectedClients,
        (c, name, payload) ∈ dispatchEngineEvent name payload s)
    ∧ (∀ rooms2 : List (String × String),
        dispatchEngineEvent name payload { s with rooms := rooms2 }
          = dispatchEngineEvent name payload s) := by
  have hmap : dispatchEngineEvent name payload s
      = s.connectedClients.map (fun c => (c, name, payload)) := by
    simp only [engineEventNames, List.mem_cons, List.not_mem_nil, or_false] at h
    rcases h with h | h | h | h | h | h | h | h <;> subst h <;> rfl
  refine ⟨hmap, ?_, ?_⟩
  · intro c hc
    rw [hmap]
    exact List.mem_map.mpr ⟨c, hc, rfl⟩
  · intro rooms2
    simp only [engineEventNames, List.mem_cons, List.not_mem_nil, or_false] at h
    rcases h with h | h | h | h | h | h | h | h <;> subst h <;> rfl

/-- C8 witness: a `jobAdded` event with payload 7 is delivered to both
connected clients, whatever rooms they are in. -/
theorem C8_event_relay_witness :
    dispatchEngineEvent "jobAdded" (7 : Nat)
        { connectedClients := ["a", "b"], rooms := [("a", "queue:Q1")] }
      = [("a", "jobAdded", 7), ("b", "jobAdded", 7)] := by
  have h := C8_event_relay "jobAdded" (7 : Nat)
    { connectedClients := ["a", "b"], rooms := [("a", "queue:Q1")] } (by simp [engineEventNames])
  rw [h.1]
  rfl

end Dashboard
